import Mathlib

/-!
Verification development for the `Tarball` archive accessor in `port/tarball.py`
(a Python 2 wrapper around the standard `tarfile` module that adds transparent
zip-to-tar conversion on read and typed-object dispatch on write).

The Python code is shallowly embedded below.  Byte strings are lists of byte
values, the underlying `tarfile.TarFile` object is an explicit state record,
fallible calls return `Except`, and the scratch-resource bookkeeping of the
zip fallback (`tempfile.mkdtemp` / `tempfile.mkstemp` / the `try/finally`
block) is modelled as a step machine with explicit failure injection so that
every exit path of the `finally` clause can be examined.

Relevant stdlib collaborator behaviour embedded here, taken from the CPython
`tarfile` module used by the code:
  * `TarFile._check` raises `IOError` when the handle is closed, and when the
    operation does not match the open mode; the closed check comes first;
  * `TarFile.getmember` scans the member list from bottom to top and raises
    `KeyError` when no member has the requested name;
  * `TarFile.extractfile` returns a file object for regular members and
    `None` for members without payload (directories);
  * `TarFile.add(dir, arcname=..)` first appends a DIRTYPE entry for the
    directory itself and then recurses over `os.listdir` in unspecified
    order; a directory entry is stored with a trailing slash which
    `TarInfo.frombuf` strips again on reading, so the scratch root written
    with `arcname=""` reads back as a member with the empty name.
-/

/-- Python 2 byte strings are modelled as lists of byte values. -/
abbrev Bytes := List Nat

/-- UTF-8 encoding, as performed by `arcname.encode('utf8')` in the source. -/
def encodeUtf8 (s : String) : Bytes :=
  (s.data.flatMap String.utf8EncodeChar).map UInt8.toNat

/-- Entry type flag of a tar member: the wrapper only ever produces regular
files (REGTYPE) and, via the zip fallback, directories (DIRTYPE). -/
inductive TarType where
  | reg
  | dir
deriving DecidableEq

/-- Mode string of the archive handle; the source only distinguishes
`mode.startswith('r')` from the rest, and the claims use `r` and `w`. -/
inductive Mode where
  | r
  | w
deriving DecidableEq

/-- Test performed by the source: `mode.startswith('r')`. -/
def Mode.startsWithR : Mode → Bool
  | .r => true
  | .w => false

/-- Embedding of `tarfile.TarInfo`: the fields the source sets or reads. -/
structure TarInfo where
  name : Bytes
  mode : Nat
  mtime : Int
  size : Nat
  typ : TarType
deriving DecidableEq

/-- One member of a tar archive: its header and its payload. -/
structure TarMember where
  info : TarInfo
  payload : Bytes
deriving DecidableEq

/-- The steps executed inside the `try` block of the zip fallback, in program
order.  Each one is an external call that can raise. -/
inductive Step where
  | mkdtemp
  | mkstemp
  | fdopen
  | zipOpen
  | extractall
  | tarOpenW
  | tarAdd
  | tarClose
  | reopen
deriving DecidableEq

/-- Position of a step in the `try` block of the zip fallback. -/
def Step.idx : Step → Nat
  | .mkdtemp => 0
  | .mkstemp => 1
  | .fdopen => 2
  | .zipOpen => 3
  | .extractall => 4
  | .tarOpenW => 5
  | .tarAdd => 6
  | .tarClose => 7
  | .reopen => 8

/-- Errors raised by the code and its collaborators.  `readError` is
`tarfile.ReadError` (the FormatError of the design), `badDataType` is
`BadDataTypeError` (UnsupportedTypeError), `keyError` is the `KeyError`
raised by `TarFile.getmember`, `ioClosed` and `ioBadMode` are the `IOError`
raised by `TarFile._check`, `nameError` is the Python `NameError` raised on
an unbound local, `pyTypeError` and `decodeFailed` come from the pixbuf
loader, and `stepFailed s` tags a failure of external call `s` inside the
zip fallback. -/
inductive Err where
  | readError
  | badDataType
  | keyError
  | ioClosed
  | ioBadMode
  | nameError
  | pyTypeError
  | decodeFailed
  | stepFailed (s : Step)
deriving DecidableEq

/-- State of the underlying `tarfile.TarFile` object: the ordered member
list, the open mode and the closed flag. -/
structure TarFileState where
  members : List TarMember
  mode : Mode
  closed : Bool
deriving DecidableEq

/-- Embedding of `TarFile.getnames`: `_check()` only rejects a closed handle,
then the member names are listed in archive (creation) order. -/
def TarFileState.getnames (t : TarFileState) : Except Err (List Bytes) :=
  if t.closed then .error .ioClosed
  else .ok (t.members.map (fun m => m.info.name))

/-- Embedding of `TarFile._getmember`: scan the member list from bottom to
top, i.e. return the last member carrying the requested name. -/
def getmemberLast (ms : List TarMember) (name : Bytes) : Option TarMember :=
  ms.reverse.find? (fun m => decide (m.info.name = name))

/-- Embedding of `TarFile.extractfile` applied to a name: `_check("r")`
first (closed, then mode), then `getmember` raises `KeyError` when nothing
matches, then regular members yield their payload and payload-less members
(directories) yield `None`. -/
def TarFileState.extractfile (t : TarFileState) (name : Bytes) : Except Err (Option Bytes) :=
  if t.closed then .error .ioClosed
  else if t.mode ≠ .r then .error .ioBadMode
  else
    match getmemberLast t.members name with
    | none => .error .keyError
    | some m => if m.info.typ = .reg then .ok (some m.payload) else .ok none

/-- Embedding of `TarFile.addfile`: `_check("aw")` first (closed, then
mode), then the member is appended at the end of the archive. -/
def TarFileState.addfile (t : TarFileState) (info : TarInfo) (payload : Bytes) : Except Err TarFileState :=
  if t.closed then .error .ioClosed
  else if t.mode ≠ .w then .error .ioBadMode
  else .ok { t with members := t.members ++ [⟨info, payload⟩] }

/-- Embedding of `TarFile.close`: the member list written so far is
finalized on disk and the handle becomes closed. -/
def TarFileState.closeTar (t : TarFileState) : TarFileState :=
  { t with closed := true }

/-- Embedding of `gtk.gdk.Pixbuf` as far as the source uses it: the PNG
serialization produced by `save_to_callback(.., 'png', ..)`. -/
structure Pixbuf where
  png : Bytes
deriving DecidableEq

/-- The eight-byte PNG file signature. -/
def pngSignature : Bytes := [137, 80, 78, 71, 13, 10, 26, 10]

/-- Modelled abstraction of the gtk PNG pixbuf loader: streams carrying the
PNG signature decode, others raise.  The real parser is stricter, but no
claim depends on which well-formed streams decode. -/
def pixbufLoaderPng (b : Bytes) : Except Err Pixbuf :=
  if b.take 8 = pngSignature then .ok ⟨b⟩ else .error .decodeFailed

/-- The dynamically typed `data` argument of `Tarball.write`.  In Python 2 a
text string (`unicode`) is a distinct type from a byte string (`str`), and
`isinstance(data, str)` is false on it. -/
inductive PyValue where
  | str (b : Bytes)
  | unicode (s : String)
  | pixbuf (p : Pixbuf)
  | intVal (n : Int)
deriving DecidableEq

/-- The `Tarball` object: the wrapped `TarFile` state plus the default
timestamp chosen in the constructor. -/
structure Tarball where
  tar : TarFileState
  mtime : Int
deriving DecidableEq

/-- Embedding of `Tarball.close`: `self.__tar.close()`. -/
def Tarball.close (t : Tarball) : Tarball :=
  { t with tar := t.tar.closeTar }

/-- Embedding of `Tarball.getnames`. -/
def Tarball.getnames (t : Tarball) : Except Err (List Bytes) :=
  t.tar.getnames

/-- Embedding of `Tarball.read`: extract the file object for the UTF-8
encoded name, return `None` when the member has no payload, otherwise the
payload bytes. -/
def Tarball.read (t : Tarball) (arcname : String) : Except Err (Option Bytes) :=
  t.tar.extractfile (encodeUtf8 arcname)

/-- Embedding of `Tarball.read_pixbuf`: `loader.write(self.read(arcname))`;
passing the `None` of a payload-less member into the loader raises a Python
`TypeError`, otherwise the bytes are decoded as PNG. -/
def Tarball.readPixbuf (t : Tarball) (arcname : String) : Except Err Pixbuf :=
  match t.read arcname with
  | .error e => .error e
  | .ok none => .error .pyTypeError
  | .ok (some b) => pixbufLoaderPng b

/-- Embedding of `Tarball.__write_str`: the entry size is the payload
length and the member is appended via `addfile`. -/
def Tarball.writeStr (t : Tarball) (info : TarInfo) (data : Bytes) : Except Err Tarball :=
  match t.tar.addfile { info with size := data.length } data with
  | .error e => .error e
  | .ok ts => .ok { t with tar := ts }

/-- Embedding of `Tarball.__write_pixbuf`: the pixbuf is serialized to PNG
into a buffer, the entry size is the buffer length, and the member is
appended via `addfile`. -/
def Tarball.writePixbuf (t : Tarball) (info : TarInfo) (p : Pixbuf) : Except Err Tarball :=
  match t.tar.addfile { info with size := p.png.length } p.png with
  | .error e => .error e
  | .ok ts => .ok { t with tar := ts }

/-- Embedding of `Tarball.write` (the Python default for `mode` is octal
0644, i.e. 420): a `TarInfo` is built with the UTF-8 encoded name, the given
permission bits and the default timestamp of the handle, then the value is
dispatched by dynamic type: byte strings to `__write_str`, pixbufs to
`__write_pixbuf`, anything else (including Python 2 `unicode` text strings)
raises `BadDataTypeError`. -/
def Tarball.write (t : Tarball) (arcname : String) (data : PyValue) (mode : Nat) : Except Err Tarball :=
  let info : TarInfo :=
    { name := encodeUtf8 arcname, mode := mode, mtime := t.mtime, size := 0, typ := .reg }
  match data with
  | .str b => t.writeStr info b
  | .pixbuf p => t.writePixbuf info p
  | _ => .error .badDataType

/-- Scratch resources of the zip fallback: whether the `mkdtemp` directory
exists, whether the `mkstemp` file exists, and whether `os.fdopen`
succeeded so that the local `tmp_fo` is bound. -/
structure ScratchState where
  dirExists : Bool
  fileExists : Bool
  foOpen : Bool
deriving DecidableEq

/-- No scratch resources: the state before the fallback and outside it. -/
def ScratchState.initial : ScratchState :=
  ⟨false, false, false⟩

/-- Scratch state reached when the `try` block fails at step `fail` (steps
strictly before it have run), or runs to completion on `none`. -/
def scratchAfter : Option Step → ScratchState
  | none => ⟨true, true, true⟩
  | some s => ⟨decide (0 < s.idx), decide (1 < s.idx), decide (2 < s.idx)⟩

/-- Embedding of the `finally` clause: `tmp_fo.close()` raises a Python
`NameError` when `os.fdopen` never ran (the local `tmp_fo` is unbound), in
which case `os.unlink` and `shutil.rmtree` are skipped; otherwise all three
cleanup calls run and remove the scratch file and directory.  I/O failures
of the cleanup calls themselves are not modelled. -/
def finallyRun (s : ScratchState) : ScratchState × Option Err :=
  if s.foOpen then (⟨false, false, false⟩, none)
  else (s, some Err.nameError)

/-- The tar member produced by `tar.add` for one extracted regular file of
a flat zip archive: the arcname is the zip member name and the payload is
re-read from the scratch directory.  The mode and mtime fields come from
the stat of the extracted file; they are filesystem-dependent and no claim
depends on them, so they are set to 0 here. -/
def extractedFileMember (e : Bytes × Bytes) : TarMember :=
  ⟨⟨e.1, 0, 0, e.2.length, .reg⟩, e.2⟩

/-- The member `tar.add(tmp_dir, arcname='')` appends for the scratch root
directory itself, before recursing into its children: a DIRTYPE entry whose
name is stored as "/" and reads back as the empty name. -/
def rootDirMember : TarMember :=
  ⟨⟨[], 0, 0, 0, .dir⟩, []⟩

/-- Members of the tar archive produced by the zip fallback conversion for a
flat zip archive (no directory members, no slash in names): the scratch root
directory entry followed by the extracted files in the order `os.listdir`
returned them, which is unspecified relative to the zip order. -/
def convertZip (ord : List (Bytes × Bytes)) : List TarMember :=
  rootDirMember :: ord.map extractedFileMember

/-- Python truthiness of the `mtime` argument: `None` and 0 are falsy. -/
def pyTruthyInt : Option Int → Bool
  | none => false
  | some m => decide (m ≠ 0)

/-- Embedding of the constructor epilogue `if mtime: self.mtime = mtime
else: self.mtime = time.time()`, with `now` the value of `time.time()`. -/
def chooseMtime (mtimeArg : Option Int) (now : Int) : Int :=
  if pyTruthyInt mtimeArg then mtimeArg.getD 0 else now

/-- Result of the constructor: the scratch resources left on disk and
either the established handle or the raised error. -/
structure InitOutcome where
  scratch : ScratchState
  result : Except Err Tarball

/-- Embedding of `Tarball.__init__`.  Parameters: `mode` the mode string,
`isTar` the value of `tarfile.is_tarfile(name)`, `isZip` the value of
`zipfile.is_zipfile(name)`, `tarContents` the members of the file at `name`
when it is a tar archive, `ord` the flat zip members in `os.listdir` order,
`fail` the first external call of the fallback `try` block to raise (or
`none`), `mtimeArg` the `mtime` argument and `now` the current time.
Branches: direct open when writing or when the file is a tar archive;
`tarfile.ReadError` when the file is neither tar nor zip; otherwise the
fallback conversion under `try/finally`. -/
def tarballInit (mode : Mode) (isTar : Bool) (isZip : Bool)
    (tarContents : List TarMember) (ord : List (Bytes × Bytes))
    (fail : Option Step) (mtimeArg : Option Int) (now : Int) : InitOutcome :=
  if !mode.startsWithR || isTar then
    let members := match mode with
      | .r => tarContents
      | .w => []
    { scratch := ScratchState.initial,
      result := .ok { tar := { members := members, mode := mode, closed := false },
                      mtime := chooseMtime mtimeArg now } }
  else if !isZip then
    { scratch := ScratchState.initial, result := .error .readError }
  else
    let body : Except Err TarFileState :=
      match fail with
      | none => .ok { members := convertZip ord, mode := mode, closed := false }
      | some s => .error (.stepFailed s)
    match finallyRun (scratchAfter fail) with
    | (scratch2, some e) => { scratch := scratch2, result := .error e }
    | (scratch2, none) =>
      match body with
      | .error e => { scratch := scratch2, result := .error e }
      | .ok ts => { scratch := scratch2,
                    result := .ok { tar := ts, mtime := chooseMtime mtimeArg now } }

/-- The `TarFile` state of a native tar archive holding the given flat
name-payload entries, opened for reading: the comparison point for the
zip fallback equivalence claim. -/
def nativeTar (entries : List (Bytes × Bytes)) : TarFileState :=
  { members := entries.map extractedFileMember, mode := .r, closed := false }

/-- Helper: in a member list with pairwise distinct names, searching by the
name of a listed member finds exactly that member. -/
theorem find_by_unique_name (l : List TarMember) (m : TarMember) (hm : m ∈ l)
    (hn : (l.map fun x => x.info.name).Nodup) :
    l.find? (fun x => decide (x.info.name = m.info.name)) = some m := by
  induction l with
  | nil => cases hm
  | cons a t ih =>
    simp only [List.map_cons] at hn
    rcases List.mem_cons.mp hm with h1 | h1
    · subst h1
      have hp : (fun x : TarMember => decide (x.info.name = m.info.name)) m = true := by simp
      exact List.find?_cons_of_pos t hp
    · have hne : a.info.name ≠ m.info.name := by
        intro hEq
        have hmm : m.info.name ∈ t.map (fun x => x.info.name) :=
          List.mem_map_of_mem _ h1
        rw [← hEq] at hmm
        exact (List.nodup_cons.mp hn).1 hmm
      have hp : ¬ ((fun x : TarMember => decide (x.info.name = m.info.name)) a = true) := by
        simpa using hne
      exact (List.find?_cons_of_neg t hp).trans (ih h1 (List.nodup_cons.mp hn).2)

/-- Helper: `TarFile._getmember` (bottom-to-top search) on a member list with
pairwise distinct names returns the unique member with the requested name. -/
theorem getmemberLast_of_unique (ms : List TarMember) (m : TarMember) (hm : m ∈ ms)
    (hn : (ms.map fun x => x.info.name).Nodup) :
    getmemberLast ms m.info.name = some m := by
  unfold getmemberLast
  refine find_by_unique_name _ _ (List.mem_reverse.mpr hm) ?_
  rw [List.map_reverse]
  exact (List.nodup_reverse).mpr hn

/-- C1 counterexample: on an open read handle over an archive whose only
member is named "a", `read("x")` raises `KeyError` (from the underlying
`getmember`) instead of returning the absent value `None`. -/
theorem read_missing_member_cex :
    ((tarballInit .r true false [⟨⟨[97], 420, 0, 1, .reg⟩, [120]⟩] []
        Option.none Option.none 0).result.bind (fun t => t.read "x")) = .error .keyError ∧
    (Except.error Err.keyError : Except Err (Option Bytes)) ≠ .ok none := by
  refine ⟨rfl, fun h => ?_⟩
  exact Except.noConfusion h

/-- C1 (amended): for every open read-mode handle and every name whose UTF-8
encoding matches no member, `read(name)` raises `KeyError`; the absent value
is returned only for an existing member without payload. -/
theorem read_missing_member_raises (t : Tarball) (n : String)
    (hop : t.tar.closed = false) (hmode : t.tar.mode = .r)
    (hmiss : ∀ m ∈ t.tar.members, m.info.name ≠ encodeUtf8 n) :
    t.read n = .error .keyError := by
  have hnone : getmemberLast t.tar.members (encodeUtf8 n) = none := by
    unfold getmemberLast
    rw [List.find?_eq_none]
    intro x hx
    simpa using hmiss x (List.mem_reverse.mp hx)
  simp [Tarball.read, TarFileState.extractfile, hop, hmode, hnone]

/-- Witness for C1 (amended) at a concrete handle holding only member "a". -/
theorem read_missing_member_raises_witness :
    ({ tar := { members := [⟨⟨[97], 420, 0, 1, .reg⟩, [120]⟩], mode := .r, closed := false },
       mtime := 0 } : Tarball).read "x" = .error .keyError :=
  read_missing_member_raises _ "x" rfl rfl (by decide)

/-- C2 counterexample: when `tempfile.mkstemp` fails during the zip fallback
(after `tempfile.mkdtemp` succeeded), the `finally` clause raises `NameError`
on the unbound local `tmp_fo`, so the scratch directory is not deleted and
the original error is masked rather than re-raised. -/
theorem zip_fallback_mkstemp_leak_cex :
    (tarballInit .r false true [] [([97], [120])] (some .mkstemp) Option.none 0).scratch.dirExists
      = true ∧
    (tarballInit .r false true [] [([97], [120])] (some .mkstemp) Option.none 0).result
      = .error .nameError ∧
    Err.nameError ≠ Err.stepFailed .mkstemp := by
  exact ⟨rfl, rfl, by decide⟩

/-- C2 (amended): once all three scratch resources are acquired (every step
from `zipfile.ZipFile` on), the scratch directory and scratch file are
deleted on every exit path, the original error of a failing conversion step
is re-raised, and on success the handle over the converted archive is
established. -/
theorem zip_fallback_cleanup (ord : List (Bytes × Bytes)) (mt : Option Int) (now : Int)
    (fail : Option Step) (h : ∀ s, fail = some s → 2 < s.idx) :
    ((tarballInit .r false true [] ord fail mt now).scratch.dirExists = false ∧
     (tarballInit .r false true [] ord fail mt now).scratch.fileExists = false) ∧
    (∀ s, fail = some s →
      (tarballInit .r false true [] ord fail mt now).result = .error (.stepFailed s)) ∧
    (fail = Option.none → ∃ t, (tarballInit .r false true [] ord fail mt now).result = .ok t ∧
      t.tar.members = convertZip ord) := by
  cases fail with
  | none =>
    refine ⟨⟨rfl, rfl⟩, ?_, ?_⟩
    · intro s hs
      cases hs
    · intro hc
      exact ⟨_, rfl, rfl⟩
  | some s =>
    have h3 : 2 < s.idx := h s rfl
    have hfo : (scratchAfter (some s)).foOpen = true := by
      simp [scratchAfter, h3]
    have hfin : finallyRun (scratchAfter (some s)) = (⟨false, false, false⟩, none) := by
      simp [finallyRun, hfo]
    refine ⟨?_, fun u hu => ?_, fun hc => by cases hc⟩
    · simp [tarballInit, Mode.startsWithR, hfin]
    · cases hu
      simp [tarballInit, Mode.startsWithR, hfin]

/-- Witness for C2 (amended) at a failure of `zip.extractall`. -/
theorem zip_fallback_cleanup_witness :
    (((tarballInit .r false true [] [([97], [120])] (some .extractall) Option.none 0).scratch.dirExists
        = false ∧
      (tarballInit .r false true [] [([97], [120])] (some .extractall) Option.none 0).scratch.fileExists
        = false) ∧
     (∀ s, (some Step.extractall) = some s →
       (tarballInit .r false true [] [([97], [120])] (some .extractall) Option.none 0).result
         = .error (.stepFailed s)) ∧
     ((some Step.extractall) = Option.none →
       ∃ t, (tarballInit .r false true [] [([97], [120])] (some .extractall) Option.none 0).result
           = .ok t ∧
         t.tar.members = convertZip [([97], [120])])) :=
  zip_fallback_cleanup [([97], [120])] Option.none 0 (some .extractall)
    (fun s hs => by cases hs; decide)

/-- C3 counterexample: on a closed handle, `write` with an unsupported value
(an integer) fails with `BadDataTypeError`, not with the closed-handle error,
because the dynamic type dispatch raises before `addfile` ever checks the
closed flag. -/
theorem closed_write_bad_type_cex :
    (Tarball.close
        { tar := { members := [], mode := .w, closed := false },
          mtime := 0 }).write "x" (.intVal 5) 420 = .error .badDataType ∧
    Err.badDataType ≠ Err.ioClosed := by
  exact ⟨rfl, by decide⟩

/-- C3 (amended): after `close()`, `read`, `list_names`, `read_typed_object`
and `write` with any supported value all fail with the closed-handle error;
only `write` with an unsupported value fails with `UnsupportedTypeError`
instead, since the type check precedes the closed check. -/
theorem closed_handle_ops_fail (t : Tarball) (h : t.tar.closed = true)
    (n : String) (b : Bytes) (p : Pixbuf) (m : Nat) :
    t.read n = .error .ioClosed ∧
    t.getnames = .error .ioClosed ∧
    t.readPixbuf n = .error .ioClosed ∧
    t.write n (.str b) m = .error .ioClosed ∧
    t.write n (.pixbuf p) m = .error .ioClosed := by
  simp [Tarball.read, Tarball.getnames, Tarball.readPixbuf, Tarball.write,
    Tarball.writeStr, Tarball.writePixbuf, TarFileState.extractfile,
    TarFileState.getnames, TarFileState.addfile, h]

/-- Witness for C3 (amended) at a concrete handle closed after creation. -/
theorem closed_handle_ops_fail_witness :
    (Tarball.close
      { tar := { members := [], mode := .r, closed := false },
        mtime := 0 }).read "x" = .error .ioClosed ∧
    (Tarball.close
      { tar := { members := [], mode := .r, closed := false },
        mtime := 0 }).getnames = .error .ioClosed ∧
    (Tarball.close
      { tar := { members := [], mode := .r, closed := false },
        mtime := 0 }).readPixbuf "x" = .error .ioClosed ∧
    (Tarball.close
      { tar := { members := [], mode := .r, closed := false },
        mtime := 0 }).write "x" (.str [1]) 420 = .error .ioClosed ∧
    (Tarball.close
      { tar := { members := [], mode := .r, closed := false },
        mtime := 0 }).write "x" (.pixbuf ⟨[2]⟩) 420 = .error .ioClosed :=
  closed_handle_ops_fail _ rfl "x" [1] ⟨[2]⟩ 420

/-- C4 counterexample: on a fresh write-mode handle, `write` with a Python 2
text string (`unicode`) does not succeed: `isinstance(data, str)` is false
on `unicode`, so the dispatch falls through and raises `BadDataTypeError`. -/
theorem write_unicode_rejected_cex :
    ((tarballInit .w false false [] [] Option.none Option.none 0).result.bind
      (fun tw => tw.write "x" (.unicode "hi") 420)) = .error .badDataType := by
  exact rfl

/-- C4 (amended): on every open write-mode handle a byte string value is
accepted and appended as a new member, while a Python 2 text string
(`unicode`) value fails with `BadDataTypeError`. -/
theorem write_str_ok_unicode_rejected (t : Tarball) (hop : t.tar.closed = false)
    (hmode : t.tar.mode = .w) (n : String) (b : Bytes) (m : Nat) (s : String) :
    t.write n (.str b) m =
      .ok { t with tar := { t.tar with
        members := t.tar.members ++ [⟨⟨encodeUtf8 n, m, t.mtime, b.length, .reg⟩, b⟩] } } ∧
    t.write n (.unicode s) m = .error .badDataType := by
  constructor
  · simp [Tarball.write, Tarball.writeStr, TarFileState.addfile, hop, hmode]
  · rfl

/-- Witness for C4 (amended) at a fresh write-mode handle. -/
theorem write_str_ok_unicode_rejected_witness :
    ({ tar := { members := [], mode := .w, closed := false }, mtime := 3 } : Tarball).write
        "a" (.str [5]) 420 =
      .ok { tar := { members := [] ++ [⟨⟨encodeUtf8 "a", 420, 3, [5].length, .reg⟩, [5]⟩],
                     mode := .w, closed := false }, mtime := 3 } ∧
    ({ tar := { members := [], mode := .w, closed := false }, mtime := 3 } : Tarball).write
        "a" (.unicode "a") 420 = .error .badDataType :=
  write_str_ok_unicode_rejected _ rfl rfl "a" [5] 420 "a"

/-- C5: `write` called with a value of unsupported type (an integer, or a
Python 2 text string) fails with `BadDataTypeError` on every handle; an
error is raised before `addfile` runs, so no member is appended and the
handle state is unchanged. -/
theorem write_unsupported_type_fails (t : Tarball) (n : String) (k : Int) (s : String) (m : Nat) :
    t.write n (.intVal k) m = .error .badDataType ∧
    t.write n (.unicode s) m = .error .badDataType := by
  exact ⟨rfl, rfl⟩

/-- C6: round-trip.  For every byte string s, name n, permission bits and
timestamps, writing s under n to a fresh write-mode handle, closing it, and
reopening the resulting archive in read mode (the written file is a valid
tar archive, so `tarfile.is_tarfile` holds and the direct branch is taken)
makes `read(n)` return exactly s. -/
theorem write_close_reopen_read_roundtrip (n : String) (s : Bytes) (m : Nat)
    (mt mt2 : Option Int) (now now2 : Int) :
    ((tarballInit .w false false [] [] Option.none mt now).result.bind (fun tw =>
      (tw.write n (.str s) m).bind (fun t1 =>
        (tarballInit .r true false t1.close.tar.members [] Option.none mt2 now2).result.bind
          (fun tr => tr.read n)))) = .ok (some s) := by
  simp [tarballInit, Mode.startsWithR, Tarball.write, Tarball.writeStr,
    TarFileState.addfile, Tarball.close, TarFileState.closeTar, Tarball.read,
    TarFileState.extractfile, getmemberLast, Except.bind, List.find?]

/-- C7: opening a path in read mode when it is neither a tar archive nor a
valid zip archive raises `tarfile.ReadError` (the FormatError of the
design) before any scratch resource is created, so no scratch files remain
and the error reaches the caller directly. -/
theorem open_unknown_format_error (tc : List TarMember) (ord : List (Bytes × Bytes))
    (fail : Option Step) (mt : Option Int) (now : Int) :
    (tarballInit .r false false tc ord fail mt now).result = .error .readError ∧
    (tarballInit .r false false tc ord fail mt now).scratch = ScratchState.initial := by
  exact ⟨rfl, rfl⟩

/-- C8: after writing members named "a", "b", "c" in that order to a fresh
write-mode handle, `getnames` lists exactly those names in creation order
(the stored names are the UTF-8 encodings used as archive paths). -/
theorem getnames_after_three_writes (mt : Option Int) (now : Int)
    (pa pb pc : Bytes) (m : Nat) :
    ((tarballInit .w false false [] [] Option.none mt now).result.bind (fun t0 =>
      (t0.write "a" (.str pa) m).bind (fun t1 =>
        (t1.write "b" (.str pb) m).bind (fun t2 =>
          (t2.write "c" (.str pc) m).bind (fun t3 =>
            t3.getnames))))) = .ok [encodeUtf8 "a", encodeUtf8 "b", encodeUtf8 "c"] := by
  rfl

/-- C10: passing an explicit default timestamp equal to 0 to the constructor
is silently ignored, because `if mtime:` tests truthiness and 0 is falsy:
the handle default timestamp becomes the current time, and a subsequently
written entry carries that current time (not 0) as its mtime. -/
theorem mtime_zero_ignored (now : Int) (hnow : now ≠ 0) (n : String) (b : Bytes) (m : Nat) :
    ∃ t0, (tarballInit .w false false [] [] Option.none (some 0) now).result = .ok t0 ∧
      t0.mtime = now ∧
      ∃ t1, t0.write n (.str b) m = .ok t1 ∧
        t1.tar.members.map (fun mem => mem.info.mtime) = [now] ∧ now ≠ 0 := by
  refine ⟨_, rfl, rfl, _, rfl, rfl, hnow⟩

/-- Witness for C10 at the concrete current time 5. -/
theorem mtime_zero_ignored_witness :
    ∃ t0, (tarballInit .w false false [] [] Option.none (some 0) 5).result = .ok t0 ∧
      t0.mtime = 5 ∧
      ∃ t1, t0.write "x" (.str [1]) 420 = .ok t1 ∧
        t1.tar.members.map (fun mem => mem.info.mtime) = [(5 : Int)] ∧ (5 : Int) ≠ 0 :=
  mtime_zero_ignored 5 (by decide) "x" [1] 420

/-- C9 counterexample: converting the one-member zip archive {"a": "x"}
yields a tar archive whose name list is ["", "a"] (the scratch root
directory entry added by `tar.add(tmp_dir, arcname='')` comes first), while
a native tar archive with the same contents lists just ["a"]; the two
handles are therefore not identical under `list_names`. -/
theorem zip_conversion_names_differ_cex :
    ((tarballInit .r false true [] [([97], [120])] Option.none Option.none 0).result.bind
      (fun t => t.getnames)) = .ok [[], [97]] ∧
    (nativeTar [([97], [120])]).getnames = .ok [[97]] ∧
    ([[], [97]] : List Bytes) ≠ [[97]] := by
  exact ⟨rfl, rfl, by decide⟩

/-- Helper: the names of the members produced for the extracted files are
exactly the zip member names, in the same order. -/
theorem names_map_extracted (l : List (Bytes × Bytes)) :
    (l.map extractedFileMember).map (fun m => m.info.name) = l.map Prod.fst := by
  simp [extractedFileMember, List.map_map]

/-- C9 (amended): opening a valid flat zip archive (pairwise distinct,
nonempty member names) in read mode succeeds with all scratch resources
cleaned up, and `read` returns the same payload as on a native tar archive
with the same contents for every member name; `list_names`, however, is not
identical: the converted archive lists the scratch root directory as an
extra empty-named first entry and lists the files in scratch-directory
order (`ord`, an arbitrary permutation of the zip order), while the native
archive lists exactly the member names. -/
theorem zip_conversion_read_equiv (entries ord : List (Bytes × Bytes))
    (hperm : ord.Perm entries)
    (hne : ∀ e ∈ entries, e.1 ≠ ([] : Bytes))
    (hnd : (entries.map Prod.fst).Nodup)
    (mt : Option Int) (now : Int) :
    ∃ t, (tarballInit .r false true [] ord Option.none mt now).result = .ok t ∧
      (tarballInit .r false true [] ord Option.none mt now).scratch = ScratchState.initial ∧
      t.getnames = .ok (([] : Bytes) :: ord.map Prod.fst) ∧
      (nativeTar entries).getnames = .ok (entries.map Prod.fst) ∧
      ∀ e ∈ entries, t.tar.extractfile e.1 = .ok (some e.2) ∧
        (nativeTar entries).extractfile e.1 = .ok (some e.2) := by
  refine ⟨_, rfl, rfl, ?_, ?_, ?_⟩
  · simp [Tarball.getnames, TarFileState.getnames, convertZip, rootDirMember,
      names_map_extracted, extractedFileMember]
  · simp [nativeTar, TarFileState.getnames, names_map_extracted, extractedFileMember]
  · intro e he
    have heOrd : e ∈ ord := hperm.mem_iff.mpr he
    constructor
    · have hmem : extractedFileMember e ∈ convertZip ord :=
        List.mem_cons_of_mem _ (List.mem_map_of_mem _ heOrd)
      have hnodup : ((convertZip ord).map fun x => x.info.name).Nodup := by
        simp only [convertZip, List.map_cons, names_map_extracted, rootDirMember]
        rw [List.nodup_cons]
        constructor
        · intro hmemEmpty
          obtain ⟨e2, he2, hfst⟩ := List.mem_map.mp hmemEmpty
          exact hne e2 (hperm.mem_iff.mp he2) hfst
        · exact ((hperm.map Prod.fst).nodup_iff).mpr hnd
      have hfind := getmemberLast_of_unique (convertZip ord) (extractedFileMember e) hmem hnodup
      simp only [extractedFileMember] at hfind
      simp [TarFileState.extractfile, hfind, extractedFileMember]
    · have hmem : extractedFileMember e ∈ (nativeTar entries).members :=
        List.mem_map_of_mem _ he
      have hnodup : (((nativeTar entries).members).map fun x => x.info.name).Nodup := by
        simpa [nativeTar, names_map_extracted] using hnd
      have hfind := getmemberLast_of_unique _ (extractedFileMember e) hmem hnodup
      simp only [extractedFileMember, nativeTar] at hfind
      simp [TarFileState.extractfile, nativeTar, hfind, extractedFileMember]

/-- Witness for C9 (amended) on the two-member zip {"a": "x", "b": "y"}
extracted in the reversed scratch-directory order. -/
theorem zip_conversion_read_equiv_witness :
    ∃ t, (tarballInit .r false true [] [([98], [121]), ([97], [120])]
        Option.none Option.none 0).result = .ok t ∧
      (tarballInit .r false true [] [([98], [121]), ([97], [120])]
        Option.none Option.none 0).scratch = ScratchState.initial ∧
      t.getnames = .ok (([] : Bytes) ::
        [([98], [121]), ([97], [120])].map (Prod.fst (α := Bytes) (β := Bytes))) ∧
      (nativeTar [([97], [120]), ([98], [121])]).getnames =
        .ok ([([97], [120]), ([98], [121])].map (Prod.fst (α := Bytes) (β := Bytes))) ∧
      ∀ e ∈ [(([97], [120]) : Bytes × Bytes), ([98], [121])],
        t.tar.extractfile e.1 = .ok (some e.2) ∧
        (nativeTar [([97], [120]), ([98], [121])]).extractfile e.1 = .ok (some e.2) :=
  zip_conversion_read_equiv [([97], [120]), ([98], [121])] [([98], [121]), ([97], [120])]
    (by decide) (by decide) (by decide) Option.none 0
